import Mathlib

/-!
# Verification of `generate_business_plans.py`

A shallow embedding of the batch-automation script that loads business
records from a CSV file, invokes an external text-generation tool per
record, writes each generated plan to a file, logs failures, and prints
a success/failure summary.

Modelling conventions:
* A CSV file already parsed into rows is a `List (List String)`; the
  header row is the first element.
* Python's `str.strip()` is `pyStrip`, `str.lower()` is `pyLower`,
  `name.replace(" ", "_")` is `spacesToUnderscores`, and the substring
  test `pat in s` is `strContains s pat`; they are written over
  `List Char` by structural recursion so that closed instances reduce.
* The external tool invocation (`subprocess.run`) is nondeterministic,
  so its outcome is a parameter (`ToolOutcome`): either a completed
  process with an exit code and captured stdout, or a raised exception
  carried as its message string.
* The wall clock (`datetime.now().strftime(...)`) is nondeterministic,
  so the formatted timestamp is a parameter `ts : String`.
* The filesystem visible to the script is a `WorldState`: an
  association list of plan files (path, content) written with mode
  `'w'` (create or overwrite), plus the append-only error log
  `error_log.txt`, modelled as the list of appended messages (each
  `file.write(msg)` call appends one element).
* A file `open`/`write` either succeeds or raises; this outcome is a
  parameter (`WriteOutcome`).
-/

/-- Python's substring test `pat in s`: `pat` occurs contiguously in `s`. -/
def strContains (s pat : String) : Bool :=
  s.toList.tails.any fun t => pat.toList.isPrefixOf t

/-- Python's `str.strip()`: drop leading and trailing whitespace. -/
def pyStrip (s : String) : String :=
  ⟨(((s.toList.dropWhile Char.isWhitespace).reverse).dropWhile Char.isWhitespace).reverse⟩

/-- Python's `str.lower()` on the ASCII letters the script deals in. -/
def pyLower (s : String) : String :=
  ⟨s.toList.map Char.toLower⟩

/-- The script's `name.replace(" ", "_")`: each space becomes an
underscore (the pattern is a single character, so the call is a
character-wise replacement). -/
def spacesToUnderscores (s : String) : String :=
  ⟨s.toList.map fun c => if c = ' ' then '_' else c⟩

/-- One business record, as built by `load_businesses` from a CSV row
(`{'name': ..., 'problem': ..., 'solution': ..., 'landing_page': ...}`). -/
structure Business where
  name : String
  problem : String
  solution : String
  landing_page : String
deriving DecidableEq, Repr

/-- The fixed output directory (`output_directory` in the script); the
absolute prefix contributed by the script's own directory is irrelevant
to every claim, so the constant keeps only the fixed final component. -/
def output_directory : String := "Generated_Business_Plans"

/-- `load_businesses`: skip the header row (`next(reader)`), keep each
row with at least four fields, and build a record from its first four
fields with surrounding whitespace stripped. -/
def load_businesses (rows : List (List String)) : List Business :=
  (rows.drop 1).filterMap fun row =>
    if 4 ≤ row.length then
      some { name := pyStrip (row.getD 0 "")
             problem := pyStrip (row.getD 1 "")
             solution := pyStrip (row.getD 2 "")
             landing_page := pyStrip (row.getD 3 "") }
    else none

/-- `generate_filename`: lowercase the name with spaces replaced by
underscores, then append an underscore and the formatted timestamp
(`datetime.now().strftime('%Y-%m-%d_%H-%M-%S')`, passed in as `ts`). -/
def generate_filename (name ts : String) : String :=
  pyLower (spacesToUnderscores name) ++ "_" ++ ts

/-- The result of a completed `subprocess.run`: exit code and captured
standard output. -/
structure ToolResponse where
  returncode : Int
  stdout : String
deriving DecidableEq, Repr

/-- Outcome of invoking the external tool: either a completed process,
or a raised exception (carried as the exception's message string). -/
inductive ToolOutcome where
  | ok (response : ToolResponse)
  | exn (e : String)
deriving DecidableEq, Repr

/-- Outcome of a file open/write: success, or a raised exception. -/
inductive WriteOutcome where
  | ok
  | err (e : String)
deriving DecidableEq, Repr

/-- `generate_business_plan`, with the subprocess outcome as a
parameter: exit code 0 returns `response.stdout.strip()`; a non-zero
exit code or a raised exception returns an `"Error..."` string. -/
def generate_business_plan (tool : ToolOutcome) : String :=
  match tool with
  | .ok response =>
      if response.returncode = 0 then
        pyStrip response.stdout
      else
        "Error: AI model failed to generate business plan."
  | .exn e => "Error: " ++ e

/-- The plan files on disk: an association list of (path, content). -/
abbrev FileSystem := List (String × String)

/-- Writing `content` to `path` with mode `'w'`: create the file, or
overwrite it if it already exists. -/
def writeFile (fs : FileSystem) (path content : String) : FileSystem :=
  (path, content) :: fs.filter fun f => f.1 ≠ path

/-- The script-visible mutable world: plan files plus the append-only
error log (`error_log.txt`), as the list of appended messages. -/
structure WorldState where
  fs : FileSystem
  errorLog : List String
deriving DecidableEq, Repr

/-- Result of `save_business_plan`: the updated filesystem and the
returned status string. -/
structure SaveResult where
  fs : FileSystem
  result : String
deriving DecidableEq, Repr

/-- `save_business_plan`: derive the file path from the business name
and timestamp, try to write the plan; on success return the
`"Business plan saved: ..."` message, on a raised exception catch it
and return `"Error saving file: ..."` without modifying the
filesystem. -/
def save_business_plan (fs : FileSystem) (business : Business)
    (plan : String) (ts : String) (w : WriteOutcome) : SaveResult :=
  let filename := generate_filename business.name ts
  let file_path := output_directory ++ "/" ++ filename ++ ".txt"
  match w with
  | .ok => ⟨writeFile fs file_path plan, "Business plan saved: " ++ file_path⟩
  | .err e => ⟨fs, "Error saving file: " ++ e⟩

/-- `process_business`: generate the plan; if the plan text contains
`"Error"`, raise, landing in the `except` block, which appends one
message to the error log and returns it — unless the log append itself
raises (`logw = .err e`), in which case the exception propagates
(`Except.error`). Otherwise save the plan and return the status string
from `save_business_plan`. `savew` is the outcome of the plan-file
write, `logw` the outcome of the error-log append. -/
def process_business (st : WorldState) (business : Business)
    (tool : ToolOutcome) (ts : String) (savew logw : WriteOutcome) :
    WorldState × Except String String :=
  let plan := generate_business_plan tool
  if strContains plan "Error" then
    let error_message := "Error processing '" ++ business.name ++ "': " ++ plan ++ "\n"
    match logw with
    | .ok => (⟨st.fs, st.errorLog ++ [error_message]⟩, Except.ok error_message)
    | .err e => (st, Except.error e)
  else
    let saved := save_business_plan st.fs business plan ts savew
    (⟨saved.fs, st.errorLog⟩, Except.ok saved.result)

/-- Per-record nondeterministic environment: the tool outcome, the
formatted timestamp, the plan-file write outcome and the log-append
outcome for the record at a given position. -/
abbrev EnvEntry := ToolOutcome × String × WriteOutcome × WriteOutcome

/-- The status string `process_business` returns for one record (it
does not depend on the incoming `WorldState`). -/
def process_result (business : Business) (entry : EnvEntry) :
    Except String String :=
  (process_business ⟨[], []⟩ business entry.1 entry.2.1 entry.2.2.1 entry.2.2.2).2

/-- The orchestrator loop of `main`: apply `process_business` to each
loaded record in order (as `pool.imap` does, collecting results in
input order), threading the world state; an uncaught exception in a
worker aborts the run (`Except.error`). `i` is the position of the
first record of `businesses` in the original input, used to look up
the record's environment entry. -/
def run_all (st : WorldState) (env : Nat → EnvEntry) :
    List Business → Nat → Except String (WorldState × List String)
  | [], _ => Except.ok (st, [])
  | business :: rest, i =>
      match process_business st business (env i).1 (env i).2.1 (env i).2.2.1 (env i).2.2.2 with
      | (_, .error e) => Except.error e
      | (st1, .ok s) =>
          match run_all st1 env rest (i + 1) with
          | .error e => Except.error e
          | .ok (st', results) => Except.ok (st', s :: results)

/-- `main`'s success tally: `sum(1 for r in results if "saved" in r)`. -/
def success_count (results : List String) : Nat :=
  (results.map fun r => if strContains r "saved" then 1 else 0).sum

/-- `main`'s failure tally: `len(businesses) - success_count`. -/
def failure_count (businesses : List Business) (results : List String) : Nat :=
  businesses.length - success_count results

/-- The external tool invocation failed: non-zero exit code, or an
exception was raised. -/
def toolFailed : ToolOutcome → Prop
  | .ok response => response.returncode ≠ 0
  | .exn _ => True

instance : DecidablePred toolFailed := fun t => by
  cases t <;> simp [toolFailed] <;> infer_instance

/-! ## Helper lemmas -/

/-- If `pat` is a prefix of `s` (as character lists), `s` contains `pat`. -/
theorem strContains_of_prefix_chars (s pat : String)
    (h : pat.toList <+: s.toList) : strContains s pat = true := by
  unfold strContains
  rw [List.any_eq_true]
  exact ⟨s.toList, by simp [List.mem_tails],
    List.isPrefixOf_iff_prefix.mpr h⟩

/-- A string contains any of its prefixes: `strContains (pat ++ r) pat`. -/
theorem strContains_append_right (pat r : String) :
    strContains (pat ++ r) pat = true := by
  apply strContains_of_prefix_chars
  simp [String.toList, String.data_append]

/-- A failed tool invocation always yields a plan containing `"Error"`. -/
theorem toolFailed_plan_contains_error (tool : ToolOutcome)
    (h : toolFailed tool) : strContains (generate_business_plan tool) "Error" = true := by
  cases tool with
  | ok r =>
      have hr : ¬ r.returncode = 0 := h
      simp only [generate_business_plan, if_neg hr]
      decide
  | exn e =>
      show strContains ("Error: " ++ e) "Error" = true
      have hsplit : ("Error" : String) ++ ": " = "Error: " := rfl
      have : ("Error: " ++ e) = "Error" ++ (": " ++ e) := by
        rw [← String.append_assoc, hsplit]
      rw [this]
      exact strContains_append_right "Error" (": " ++ e)

/-- The status string returned by `process_business` does not depend on
the incoming world state. -/
theorem process_business_snd_const (st : WorldState) (business : Business)
    (tool : ToolOutcome) (ts : String) (savew logw : WriteOutcome) :
    (process_business st business tool ts savew logw).2 =
      process_result business (tool, ts, savew, logw) := by
  unfold process_result process_business save_business_plan
  by_cases hc : strContains (generate_business_plan tool) "Error" = true <;>
    cases logw <;> cases savew <;> simp [hc]

/-- The results collected by a completed run are exactly the per-record
handler outputs, in input order. -/
theorem run_all_ok_results (env : Nat → EnvEntry) :
    ∀ (bs : List Business) (st st' : WorldState) (i : Nat) (results : List String),
      run_all st env bs i = Except.ok (st', results) →
      results.map Except.ok = bs.mapIdx fun j b => process_result b (env (i + j)) := by
  intro bs
  induction bs with
  | nil =>
      intro st st' i results h
      simp [run_all] at h
      simp [h.2.symm]
  | cons b rest ih =>
      intro st st' i results h
      unfold run_all at h
      rcases h1 : process_business st b (env i).1 (env i).2.1 (env i).2.2.1 (env i).2.2.2
        with ⟨st1, r⟩
      rw [h1] at h
      cases r with
      | error e => simp at h
      | ok s =>
          simp only at h
          rcases h2 : run_all st1 env rest (i + 1) with e | p
          · rw [h2] at h; exact absurd h (by simp)
          · rw [h2] at h
            obtain ⟨st'', rs⟩ := p
            simp only [Except.ok.injEq, Prod.mk.injEq] at h
            obtain ⟨-, hres⟩ := h
            subst hres
            have hfirst : Except.ok s = process_result b (env i) := by
              rw [← process_business_snd_const st b (env i).1 (env i).2.1 (env i).2.2.1 (env i).2.2.2,
                h1]
            have hrest := ih st1 st'' (i + 1) rs h2
            rw [List.mapIdx_cons]
            simp only [List.map_cons, Nat.add_zero, ← hfirst]
            congr 1
            rw [hrest]
            congr 1
            funext j x
            congr 2
            omega

/-- A completed run yields one result per input record. -/
theorem run_all_ok_length (env : Nat → EnvEntry) (bs : List Business)
    (st st' : WorldState) (i : Nat) (results : List String)
    (h : run_all st env bs i = Except.ok (st', results)) :
    results.length = bs.length := by
  have := run_all_ok_results env bs st st' i results h
  have hlen := congrArg List.length this
  simpa [List.length_mapIdx] using hlen

/-- The success tally never exceeds the number of results. -/
theorem success_count_le (results : List String) :
    success_count results ≤ results.length := by
  induction results with
  | nil => simp [success_count]
  | cons r rs ih =>
      simp only [success_count, List.map_cons, List.sum_cons, List.length_cons]
      simp only [success_count] at ih
      split <;> omega

/-- The indicator-sum tally equals the number of results containing
`"saved"`. -/
theorem success_count_eq_filter (results : List String) :
    success_count results = (results.filter fun r => strContains r "saved").length := by
  induction results with
  | nil => simp [success_count]
  | cons r rs ih =>
      simp only [success_count, List.map_cons, List.sum_cons, List.filter_cons]
      simp only [success_count] at ih
      by_cases h : strContains r "saved" = true
      · simp [h, ih]; omega
      · simp [h, ih]

/-! ## Claim theorems -/

/-- C1: every input row with at least four fields (after the header row
is skipped) yields exactly one record whose `name`, `problem`,
`solution`, `landing_page` equal the row's first four fields in order,
each with surrounding whitespace trimmed; surrounding rows are loaded
unchanged around it. -/
theorem load_businesses_wellformed_row
    (header : List String) (pre post : List (List String)) (row : List String)
    (h : 4 ≤ row.length) :
    load_businesses (header :: (pre ++ row :: post)) =
      load_businesses (header :: pre) ++
        ({ name := pyStrip (row.getD 0 "")
           problem := pyStrip (row.getD 1 "")
           solution := pyStrip (row.getD 2 "")
           landing_page := pyStrip (row.getD 3 "") } : Business)
          :: load_businesses (header :: post) := by
  simp [load_businesses, List.filterMap_append, h]

/-- C1 witness: a concrete well-formed row between two others. -/
theorem load_businesses_wellformed_row_witness :
    4 ≤ ([" Acme ", " too slow", "faster widget ", " acme.com ", "extra"] : List String).length ∧
    load_businesses [["name", "problem", "solution", "landing_page"],
        ["A", "b", "c", "d"],
        [" Acme ", " too slow", "faster widget ", " acme.com ", "extra"],
        ["E", "f", "g", "h"]] =
      load_businesses [["name", "problem", "solution", "landing_page"], ["A", "b", "c", "d"]] ++
        ({ name := "Acme", problem := "too slow", solution := "faster widget",
           landing_page := "acme.com" } : Business)
          :: load_businesses [["name", "problem", "solution", "landing_page"], ["E", "f", "g", "h"]] :=
  ⟨by decide,
   load_businesses_wellformed_row
     ["name", "problem", "solution", "landing_page"]
     [["A", "b", "c", "d"]] [["E", "f", "g", "h"]]
     [" Acme ", " too slow", "faster widget ", " acme.com ", "extra"] (by decide)⟩

/-- C8: a row with fewer than four fields is dropped silently — the
loader is total (no per-row error) and the records produced for the
other rows are the same as if the short row were absent. -/
theorem load_businesses_short_row_dropped
    (header : List String) (pre post : List (List String)) (row : List String)
    (h : row.length < 4) :
    load_businesses (header :: (pre ++ row :: post)) =
      load_businesses (header :: (pre ++ post)) := by
  have h' : ¬ 4 ≤ row.length := by omega
  simp [load_businesses, List.filterMap_append, h']

/-- C8 witness: a concrete two-field row between two well-formed rows. -/
theorem load_businesses_short_row_dropped_witness :
    (["only", "two"] : List String).length < 4 ∧
    load_businesses [["hdr"], ["A", "b", "c", "d"], ["only", "two"], ["E", "f", "g", "h"]] =
      load_businesses [["hdr"], ["A", "b", "c", "d"], ["E", "f", "g", "h"]] :=
  ⟨by decide,
   load_businesses_short_row_dropped ["hdr"]
     [["A", "b", "c", "d"]] [["E", "f", "g", "h"]] ["only", "two"] (by decide)⟩

/-- C2 counterexample: with exit code 0 and captured stdout `" PLAN "`,
the generator returns the stripped text `"PLAN"`, not the captured
standard output verbatim, so the claim as stated fails. -/
theorem generate_plan_stdout_not_verbatim :
    generate_business_plan (ToolOutcome.ok ⟨0, " PLAN "⟩) ≠ " PLAN " := by
  decide

/-- C2 amended: a non-zero exit code or a raised exception yields a
string containing the literal word `"Error"`; exit code 0 yields the
captured standard output with surrounding whitespace stripped. -/
theorem generate_plan_error_marker (r : ToolResponse) (e : String) :
    (r.returncode ≠ 0 → strContains (generate_business_plan (ToolOutcome.ok r)) "Error" = true) ∧
    strContains (generate_business_plan (ToolOutcome.exn e)) "Error" = true ∧
    (r.returncode = 0 → generate_business_plan (ToolOutcome.ok r) = pyStrip r.stdout) := by
  refine ⟨fun h => ?_, ?_, fun h => ?_⟩
  · exact toolFailed_plan_contains_error (ToolOutcome.ok r) h
  · exact toolFailed_plan_contains_error (ToolOutcome.exn e) trivial
  · simp [generate_business_plan, h]

/-- C2 amended witness: concrete failing and succeeding invocations. -/
theorem generate_plan_error_marker_witness :
    strContains (generate_business_plan (ToolOutcome.ok ⟨1, "ignored"⟩)) "Error" = true ∧
    strContains (generate_business_plan (ToolOutcome.exn "boom")) "Error" = true ∧
    generate_business_plan (ToolOutcome.ok ⟨0, " PLAN "⟩) = pyStrip " PLAN " :=
  ⟨(generate_plan_error_marker ⟨1, "ignored"⟩ "boom").1 (by decide),
   (generate_plan_error_marker ⟨1, "ignored"⟩ "boom").2.1,
   (generate_plan_error_marker ⟨0, " PLAN "⟩ "boom").2.2 rfl⟩

/-- C9: with exit code 0 but captured output containing the word
`"Error"`, the record is treated as a failure: no output file is
written, one line is appended to the error log, and the result string
contains no `"saved"`, so the summary counts it as a failure. -/
theorem error_substring_false_positive :
    strContains "Error handling is fundamental" "Error" = true ∧
    process_business ⟨[], []⟩ ⟨"Acme", "p", "s", "l"⟩
        (ToolOutcome.ok ⟨0, "Error handling is fundamental"⟩) "ts" WriteOutcome.ok WriteOutcome.ok =
      (⟨[], ["Error processing 'Acme': Error handling is fundamental\n"]⟩,
       Except.ok "Error processing 'Acme': Error handling is fundamental\n") ∧
    strContains "Error processing 'Acme': Error handling is fundamental\n" "saved" = false :=
  ⟨by decide, rfl, by decide⟩

/-- C3 counterexample: a record whose tool invocation exits with code 0
and whose plan-file write would succeed still produces no output file
when the captured output contains the word `"Error"` — the claim as
stated (conditioning only on exit code 0 and a succeeding write) fails. -/
theorem process_success_error_text_no_file :
    (process_business ⟨[], []⟩ ⟨"Acme", "p", "s", "l"⟩
        (ToolOutcome.ok ⟨0, "Error prone market analysis"⟩) "ts"
        WriteOutcome.ok WriteOutcome.ok).1.fs = [] :=
  rfl

/-- C3 amended: for a record whose tool invocation exits with code 0,
whose stripped captured output does not contain `"Error"`, and whose
file write succeeds, processing creates exactly one new file — provided
the derived path is not already occupied — named
`lowercase(name with spaces replaced by underscores) + "_" + timestamp
+ ".txt"` under the fixed output directory, whose content equals the
captured standard output with surrounding whitespace stripped; the
error log is untouched. -/
theorem process_success_writes_unique_file
    (st : WorldState) (b : Business) (r : ToolResponse) (ts : String) (logw : WriteOutcome)
    (h0 : r.returncode = 0)
    (herr : strContains (pyStrip r.stdout) "Error" = false)
    (hfresh : ∀ entry ∈ st.fs,
      entry.1 ≠ output_directory ++ "/" ++ generate_filename b.name ts ++ ".txt") :
    process_business st b (ToolOutcome.ok r) ts WriteOutcome.ok logw =
      (⟨(output_directory ++ "/" ++ generate_filename b.name ts ++ ".txt", pyStrip r.stdout)
          :: st.fs, st.errorLog⟩,
       Except.ok ("Business plan saved: " ++
         (output_directory ++ "/" ++ generate_filename b.name ts ++ ".txt"))) ∧
    generate_filename b.name ts = pyLower (spacesToUnderscores b.name) ++ "_" ++ ts := by
  have hplan : generate_business_plan (ToolOutcome.ok r) = pyStrip r.stdout := by
    simp [generate_business_plan, h0]
  have hfilter : st.fs.filter
      (fun f => f.1 ≠ output_directory ++ "/" ++ generate_filename b.name ts ++ ".txt") = st.fs :=
    List.filter_eq_self.mpr (by intro a ha; simpa using hfresh a ha)
  refine ⟨?_, rfl⟩
  simp only [process_business, hplan, herr, Bool.false_eq_true, if_false,
    save_business_plan, writeFile, hfilter]

/-- C3 amended witness: a concrete record saved next to an unrelated
existing file. -/
theorem process_success_writes_unique_file_witness :
    (0 : Int) = 0 ∧
    strContains (pyStrip "  PLAN TEXT ") "Error" = false ∧
    (∀ entry ∈ ([("other.txt", "x")] : FileSystem),
      entry.1 ≠ output_directory ++ "/" ++ generate_filename "Acme Co" "2025-01-01_00-00-00" ++ ".txt") ∧
    process_business ⟨[("other.txt", "x")], ["old"]⟩ ⟨"Acme Co", "p", "s", "l"⟩
        (ToolOutcome.ok ⟨0, "  PLAN TEXT "⟩) "2025-01-01_00-00-00"
        WriteOutcome.ok WriteOutcome.ok =
      (⟨(output_directory ++ "/" ++ generate_filename "Acme Co" "2025-01-01_00-00-00" ++ ".txt",
          pyStrip "  PLAN TEXT ") :: [("other.txt", "x")], ["old"]⟩,
       Except.ok ("Business plan saved: " ++
         (output_directory ++ "/" ++ generate_filename "Acme Co" "2025-01-01_00-00-00" ++ ".txt"))) :=
  ⟨rfl, by decide, by decide,
   (process_success_writes_unique_file ⟨[("other.txt", "x")], ["old"]⟩
     ⟨"Acme Co", "p", "s", "l"⟩ ⟨0, "  PLAN TEXT "⟩ "2025-01-01_00-00-00"
     WriteOutcome.ok rfl (by decide) (by decide)).1⟩

/-- C4: when the tool invocation fails (non-zero exit or raised
exception) and the log append succeeds, processing creates no output
file and appends exactly one message to the error log; the message is
newline-terminated and, whenever the business name and the generated
error text contain no embedded newline, it is exactly one line. -/
theorem process_tool_failure_logs_once
    (st : WorldState) (b : Business) (tool : ToolOutcome) (ts : String) (savew : WriteOutcome)
    (hfail : toolFailed tool)
    (hname : b.name.toList.count '\n' = 0)
    (hplan : (generate_business_plan tool).toList.count '\n' = 0) :
    process_business st b tool ts savew WriteOutcome.ok =
      (⟨st.fs, st.errorLog ++
          ["Error processing '" ++ b.name ++ "': " ++ generate_business_plan tool ++ "\n"]⟩,
       Except.ok ("Error processing '" ++ b.name ++ "': " ++ generate_business_plan tool ++ "\n")) ∧
    ("Error processing '" ++ b.name ++ "': " ++ generate_business_plan tool ++ "\n").toList.count '\n'
      = 1 := by
  constructor
  · have hc := toolFailed_plan_contains_error tool hfail
    simp only [process_business, hc, if_true]
  · have hsplit : ("Error processing '" ++ b.name ++ "': " ++ generate_business_plan tool ++ "\n").toList
        = "Error processing '".toList ++ b.name.toList ++ "': ".toList
            ++ (generate_business_plan tool).toList ++ "\n".toList := by
      simp [String.toList, String.data_append]
    rw [hsplit]
    simp only [List.count_append, hname, hplan]
    decide

/-- C4 witness: a concrete non-zero-exit record, with empty and
nonempty starting logs represented by a nonempty one. -/
theorem process_tool_failure_logs_once_witness :
    toolFailed (ToolOutcome.ok ⟨1, "garbage"⟩) ∧
    ("Acme" : String).toList.count '\n' = 0 ∧
    (generate_business_plan (ToolOutcome.ok ⟨1, "garbage"⟩)).toList.count '\n' = 0 ∧
    process_business ⟨[("keep.txt", "k")], ["first\n"]⟩ ⟨"Acme", "p", "s", "l"⟩
        (ToolOutcome.ok ⟨1, "garbage"⟩) "ts" WriteOutcome.ok WriteOutcome.ok =
      (⟨[("keep.txt", "k")], ["first\n",
          "Error processing 'Acme': " ++ generate_business_plan (ToolOutcome.ok ⟨1, "garbage"⟩) ++ "\n"]⟩,
       Except.ok ("Error processing 'Acme': "
          ++ generate_business_plan (ToolOutcome.ok ⟨1, "garbage"⟩) ++ "\n")) :=
  ⟨by decide, by decide, by decide,
   (process_tool_failure_logs_once ⟨[("keep.txt", "k")], ["first\n"]⟩ ⟨"Acme", "p", "s", "l"⟩
     (ToolOutcome.ok ⟨1, "garbage"⟩) "ts" WriteOutcome.ok (by decide) (by decide) (by decide)).1⟩

/-- C5 counterexample: a file-write failure is a per-record failure
whose error string is returned and counted, yet nothing is appended to
the error log — `save_business_plan` swallows the exception before the
`except` block of `process_business` can log it, refuting the claim
that every per-record failure is appended to the shared log. -/
theorem save_error_not_logged :
    process_business ⟨[], ["earlier failure\n"]⟩ ⟨"Acme", "p", "s", "l"⟩
        (ToolOutcome.ok ⟨0, "PLAN"⟩) "ts" (WriteOutcome.err "disk full") WriteOutcome.ok =
      (⟨[], ["earlier failure\n"]⟩, Except.ok "Error saving file: disk full") :=
  rfl

/-- C5 amended: a file-write failure in the Output Writer is recovered
locally (no exception reaches the caller), recorded as a returned
error-message string, and counted as a failure in the summary whenever
that string does not contain `"saved"`, and the run continues with the
world state unchanged — but, unlike tool failures, nothing is appended
to the shared error log. -/
theorem process_write_failure_recovered
    (st : WorldState) (b : Business) (r : ToolResponse) (ts e : String) (logw : WriteOutcome)
    (h0 : r.returncode = 0)
    (herr : strContains (pyStrip r.stdout) "Error" = false)
    (hsv : strContains ("Error saving file: " ++ e) "saved" = false) :
    process_business st b (ToolOutcome.ok r) ts (WriteOutcome.err e) logw =
      (st, Except.ok ("Error saving file: " ++ e)) ∧
    success_count ["Error saving file: " ++ e] = 0 := by
  have hplan : generate_business_plan (ToolOutcome.ok r) = pyStrip r.stdout := by
    simp [generate_business_plan, h0]
  constructor
  · simp only [process_business, hplan, herr, Bool.false_eq_true, if_false, save_business_plan]
  · simp [success_count, hsv]

/-- C5 amended witness: a concrete disk-full failure. -/
theorem process_write_failure_recovered_witness :
    (0 : Int) = 0 ∧
    strContains (pyStrip "PLAN") "Error" = false ∧
    strContains ("Error saving file: " ++ "disk full") "saved" = false ∧
    (process_business ⟨[], ["old\n"]⟩ ⟨"Acme", "p", "s", "l"⟩ (ToolOutcome.ok ⟨0, "PLAN"⟩) "ts"
        (WriteOutcome.err "disk full") WriteOutcome.ok =
      (⟨[], ["old\n"]⟩, Except.ok ("Error saving file: " ++ "disk full")) ∧
     success_count ["Error saving file: " ++ "disk full"] = 0) :=
  ⟨rfl, by decide, by decide,
   process_write_failure_recovered ⟨[], ["old\n"]⟩ ⟨"Acme", "p", "s", "l"⟩ ⟨0, "PLAN"⟩
     "ts" "disk full" WriteOutcome.ok rfl (by decide) (by decide)⟩

/-- C6: whenever the run completes and prints a summary, the success
count plus the failure count equals the total number of input records,
for any mix of per-record outcomes. -/
theorem summary_counts_sum_to_total
    (st st' : WorldState) (env : Nat → EnvEntry) (bs : List Business) (results : List String)
    (h : run_all st env bs 0 = Except.ok (st', results)) :
    success_count results + failure_count bs results = bs.length := by
  have hlen := run_all_ok_length env bs st st' 0 results h
  have hle := success_count_le results
  unfold failure_count
  omega

/-- C6 witness: a completed two-record run in which both records
succeed. -/
theorem summary_counts_sum_to_total_witness :
    run_all ⟨[], []⟩ (fun _ => (ToolOutcome.ok ⟨0, "PLAN"⟩, "ts", WriteOutcome.ok, WriteOutcome.ok))
        [⟨"A", "p", "s", "l"⟩, ⟨"B", "p", "s", "l"⟩] 0 =
      Except.ok (⟨[("Generated_Business_Plans/b_ts.txt", "PLAN"),
                   ("Generated_Business_Plans/a_ts.txt", "PLAN")], []⟩,
        ["Business plan saved: Generated_Business_Plans/a_ts.txt",
         "Business plan saved: Generated_Business_Plans/b_ts.txt"]) ∧
    success_count ["Business plan saved: Generated_Business_Plans/a_ts.txt",
        "Business plan saved: Generated_Business_Plans/b_ts.txt"] +
      failure_count [⟨"A", "p", "s", "l"⟩, ⟨"B", "p", "s", "l"⟩]
        ["Business plan saved: Generated_Business_Plans/a_ts.txt",
         "Business plan saved: Generated_Business_Plans/b_ts.txt"] = 2 :=
  ⟨rfl,
   summary_counts_sum_to_total ⟨[], []⟩
     ⟨[("Generated_Business_Plans/b_ts.txt", "PLAN"), ("Generated_Business_Plans/a_ts.txt", "PLAN")], []⟩
     (fun _ => (ToolOutcome.ok ⟨0, "PLAN"⟩, "ts", WriteOutcome.ok, WriteOutcome.ok))
     [⟨"A", "p", "s", "l"⟩, ⟨"B", "p", "s", "l"⟩]
     ["Business plan saved: Generated_Business_Plans/a_ts.txt",
      "Business plan saved: Generated_Business_Plans/b_ts.txt"] rfl⟩

/-- C7: a completed run applies the per-record handler to every loaded
record exactly once, collecting the result strings in input order (the
results are the per-record handler outputs, positionally), and the
summary counts a record as a success exactly when its result string
contains the substring `"saved"`. -/
theorem orchestrator_results_in_order
    (st st' : WorldState) (env : Nat → EnvEntry) (bs : List Business) (results : List String)
    (h : run_all st env bs 0 = Except.ok (st', results)) :
    results.map Except.ok = (bs.mapIdx fun j b => process_result b (env j)) ∧
    success_count results = (results.filter fun r => strContains r "saved").length := by
  refine ⟨?_, success_count_eq_filter results⟩
  have hres := run_all_ok_results env bs st st' 0 results h
  simpa using hres

/-- C7 witness: a completed two-record run with one success and one
tool failure. -/
theorem orchestrator_results_in_order_witness :
    run_all ⟨[], []⟩
        (fun i => if i = 0 then (ToolOutcome.ok ⟨0, "PLAN"⟩, "ts", WriteOutcome.ok, WriteOutcome.ok)
                  else (ToolOutcome.ok ⟨1, ""⟩, "ts", WriteOutcome.ok, WriteOutcome.ok))
        [⟨"A", "p", "s", "l"⟩, ⟨"B", "p", "s", "l"⟩] 0 =
      Except.ok (⟨[("Generated_Business_Plans/a_ts.txt", "PLAN")],
        ["Error processing 'B': Error: AI model failed to generate business plan.\n"]⟩,
        ["Business plan saved: Generated_Business_Plans/a_ts.txt",
         "Error processing 'B': Error: AI model failed to generate business plan.\n"]) ∧
    (["Business plan saved: Generated_Business_Plans/a_ts.txt",
      "Error processing 'B': Error: AI model failed to generate business plan.\n"].map Except.ok =
      ([⟨"A", "p", "s", "l"⟩, ⟨"B", "p", "s", "l"⟩].mapIdx fun j b =>
        process_result b (if j = 0 then (ToolOutcome.ok ⟨0, "PLAN"⟩, "ts", WriteOutcome.ok, WriteOutcome.ok)
                          else (ToolOutcome.ok ⟨1, ""⟩, "ts", WriteOutcome.ok, WriteOutcome.ok))) ∧
     success_count ["Business plan saved: Generated_Business_Plans/a_ts.txt",
        "Error processing 'B': Error: AI model failed to generate business plan.\n"] =
      (["Business plan saved: Generated_Business_Plans/a_ts.txt",
        "Error processing 'B': Error: AI model failed to generate business plan.\n"].filter
          fun r => strContains r "saved").length) :=
  ⟨rfl,
   orchestrator_results_in_order ⟨[], []⟩
     ⟨[("Generated_Business_Plans/a_ts.txt", "PLAN")],
      ["Error processing 'B': Error: AI model failed to generate business plan.\n"]⟩
     (fun i => if i = 0 then (ToolOutcome.ok ⟨0, "PLAN"⟩, "ts", WriteOutcome.ok, WriteOutcome.ok)
               else (ToolOutcome.ok ⟨1, ""⟩, "ts", WriteOutcome.ok, WriteOutcome.ok))
     [⟨"A", "p", "s", "l"⟩, ⟨"B", "p", "s", "l"⟩]
     ["Business plan saved: Generated_Business_Plans/a_ts.txt",
      "Error processing 'B': Error: AI model failed to generate business plan.\n"] rfl⟩

/-- C10 counterexample: when the tool fails and the error-log append
itself raises, `process_business` propagates the exception instead of
returning a string — the logging call sits in the `except` handler,
outside the `try` block, so its failure is not converted. -/
theorem process_business_log_failure_raises :
    (process_business ⟨[], []⟩ ⟨"Acme", "p", "s", "l"⟩ (ToolOutcome.ok ⟨1, ""⟩) "ts"
        WriteOutcome.ok (WriteOutcome.err "log write failed")).2 =
      Except.error "log write failed" :=
  rfl

/-- C10 amended: `process_business` returns a string for every failure
arising inside its `try` block (tool failure, `"Error"`-marked plan,
plan-file write failure — the last caught inside `save_business_plan`);
an exception can reach the caller only from the error-log append in the
`except` handler, so whenever that append succeeds — or is never
reached because the plan carries no `"Error"` marker —
`process_business` returns a string. -/
theorem process_business_total_when_log_ok
    (st : WorldState) (b : Business) (tool : ToolOutcome) (ts : String) (savew logw : WriteOutcome)
    (h : logw = WriteOutcome.ok ∨ strContains (generate_business_plan tool) "Error" = false) :
    ∃ s, (process_business st b tool ts savew logw).2 = Except.ok s := by
  unfold process_business
  by_cases hc : strContains (generate_business_plan tool) "Error" = true
  · rcases h with h | h
    · subst h
      exact ⟨"Error processing '" ++ b.name ++ "': " ++ generate_business_plan tool ++ "\n",
        by simp [hc]⟩
    · rw [h] at hc
      cases hc
  · exact ⟨(save_business_plan st.fs b (generate_business_plan tool) ts savew).result,
      by simp [hc]⟩

/-- C10 amended witness: a tool failure with a succeeding log append. -/
theorem process_business_total_when_log_ok_witness :
    ((WriteOutcome.ok = WriteOutcome.ok ∨
      strContains (generate_business_plan (ToolOutcome.ok ⟨1, ""⟩)) "Error" = false) ∧
     ∃ s, (process_business ⟨[], []⟩ ⟨"Acme", "p", "s", "l"⟩ (ToolOutcome.ok ⟨1, ""⟩) "ts"
        WriteOutcome.ok WriteOutcome.ok).2 = Except.ok s) :=
  ⟨Or.inl rfl,
   process_business_total_when_log_ok ⟨[], []⟩ ⟨"Acme", "p", "s", "l"⟩ (ToolOutcome.ok ⟨1, ""⟩)
     "ts" WriteOutcome.ok WriteOutcome.ok (Or.inl rfl)⟩
